import Mathlib

/-!
Shallow embedding of the feedbackd daemon (PhoshMobi/feedbackd) LED, sound,
signal-handling and client-event code, together with theorems checking the
natural-language specification against it.

The embedding follows the C sources:
  * `src/fbd-dev-leds.c`          — LED set: discovery, selection, periodic patterns
  * `src/fbd-dev-led-multicolor.c`— multicolor LED probe and color driving
  * `src/fbd-dev-sound.c`         — sound device: playback table, stop, completion
  * `src/fbd.c`                   — daemon main, signal handlers, bus callbacks
  * `libfeedback/lfb-event.c`     — client-side event object (feedback-ended handling)
-/

namespace Fbd

/-! ## Colors and LED devices (fbd-feedback-led.h, fbd-dev-led.h) -/

/-- FbdFeedbackLedColor: the color tags a feedback may request
(`FBD_FEEDBACK_LED_COLOR_*`). -/
inductive FbdFeedbackLedColor where
  | flash
  | white
  | red
  | green
  | blue
  | rgb
deriving DecidableEq, Repr

/-- FbdLedRgbColor: an explicit r/g/b triple for RGB-capable LEDs. -/
structure FbdLedRgbColor where
  r : Nat
  g : Nat
  b : Nat
deriving DecidableEq, Repr

/-- FbdDevLed: a successfully probed LED device.  The virtual methods of the
class vtable (`supports_color`, `start_periodic`) are carried as data: the
probe chain decides which driver (and hence which method table) a device
gets, so a probed LED is fully described by its behaviour.  `id` stands for
the object identity of the `FbdDevLed` instance. -/
structure FbdDevLed where
  id : Nat
  priority : Int
  supportsColor : FbdFeedbackLedColor → Bool
  startPeriodicOk : Bool

/-- supports_color of `fbd_dev_led_multicolor_supports_color`
(src/fbd-dev-led-multicolor.c): white, red, green, blue and rgb are
supported, everything else (flash) is not. -/
def fbd_dev_led_multicolor_supports_color (color : FbdFeedbackLedColor) : Bool :=
  match color with
  | .white => true
  | .red => true
  | .green => true
  | .blue => true
  | .rgb => true
  | _ => false

/-- Modelled from the spec: the base-class `supports_color` of a generic
plain LED (`fbd-dev-led.c` is not under src/).  Per the spec an LED carries
the set of supported color tags discovered at probe time; a plain LED
supports exactly its single discovered color. -/
def fbd_dev_led_plain_supports_color (own : FbdFeedbackLedColor)
    (color : FbdFeedbackLedColor) : Bool :=
  own = color

/-! ## find_led_by_color (src/fbd-dev-leds.c) -/

/-- first loop of `find_led_by_color`: return the first LED in the list
whose `supports_color (color)` holds. -/
def find_first_supporting (leds : List FbdDevLed) (color : FbdFeedbackLedColor) :
    Option FbdDevLed :=
  match leds with
  | [] => none
  | led :: rest =>
    if led.supportsColor color then some led else find_first_supporting rest color

/-- second loop of `find_led_by_color`: return the first LED that does not
support `FBD_FEEDBACK_LED_COLOR_FLASH`. -/
def find_first_non_flash (leds : List FbdDevLed) : Option FbdDevLed :=
  match leds with
  | [] => none
  | led :: rest =>
    if !(led.supportsColor .flash) then some led else find_first_non_flash rest

/-- find_led_by_color (src/fbd-dev-leds.c): scan for the first LED
supporting `color`; if none matches, fall back to the first non-flash LED.
The `g_return_val_if_fail (self->leds, NULL)` guard makes the empty list
return NULL. -/
def find_led_by_color (leds : List FbdDevLed) (color : FbdFeedbackLedColor) :
    Option FbdDevLed :=
  match leds with
  | [] => none
  | _ =>
    match find_first_supporting leds color with
    | some led => some led
    | none => find_first_non_flash leds

/-- Specification-side restatement of `find_for_color` (spec §4.5): first LED
whose `supports_color(color)` is true, else the first LED that does NOT
support FLASH, else nothing. -/
def find_for_color_spec (leds : List FbdDevLed) (color : FbdFeedbackLedColor) :
    Option FbdDevLed :=
  (leds.find? (fun led => led.supportsColor color)).orElse
    (fun _ => leds.find? (fun led => !(led.supportsColor .flash)))

/-- example LED list of spec §8.9: a plain white LED with priority 10
followed by a multicolor LED with priority 5. -/
def examplePlainWhiteLed : FbdDevLed :=
  { id := 0
    priority := 10
    supportsColor := fbd_dev_led_plain_supports_color .white
    startPeriodicOk := true }

/-- multicolor LED of the spec §8.9 example, priority 5. -/
def exampleMulticolorLed : FbdDevLed :=
  { id := 1
    priority := 5
    supportsColor := fbd_dev_led_multicolor_supports_color
    startPeriodicOk := true }

/-- LED list of the spec §8.9 example, already in priority order. -/
def exampleLedList : List FbdDevLed := [examplePlainWhiteLed, exampleMulticolorLed]

/-! ## LED discovery and initialization (src/fbd-dev-leds.c) -/

/-- LedVariant: the five LED driver flavours tried by `probe_led`. -/
inductive LedVariant where
  | qcomMulticolor
  | qcomSingle
  | multicolor
  | flash
  | plain
deriving DecidableEq, Repr

/-- GUdevDevice as seen by the LED discovery code: the value of the
`FEEDBACKD_UDEV_ATTR` udev property (absent or some string), and, for each
driver variant, the outcome of its `_new` constructor (the probe): `some`
probed LED or `none` (the constructor set an error). -/
structure GUdevDevice where
  feedbackdProperty : Option String
  probeResult : LedVariant → Option FbdDevLed

/-- Modelled from the spec: the opt-in marker value `FEEDBACKD_UDEV_VAL_LED`
(defined in fbd-udev.h, which is not under src/).  Only the comparison with
the device property matters, not the concrete string. -/
def FEEDBACKD_UDEV_VAL_LED : String := "led"

/-- probe_led (src/fbd-dev-leds.c): try the constructors in the fixed order
QCOM-multicolor, QCOM-single, generic-multicolor, generic-flash,
generic-plain; the first that succeeds wins. -/
def probe_led (dev : GUdevDevice) : Option FbdDevLed :=
  match dev.probeResult .qcomMulticolor with
  | some led => some led
  | none =>
    match dev.probeResult .qcomSingle with
    | some led => some led
    | none =>
      match dev.probeResult .multicolor with
      | some led => some led
      | none =>
        match dev.probeResult .flash with
        | some led => some led
        | none =>
          match dev.probeResult .plain with
          | some led => some led
          | none => none

/-- probe order of the spec §4.5, as a list of variants. -/
def probe_order : List LedVariant :=
  [.qcomMulticolor, .qcomSingle, .multicolor, .flash, .plain]

/-- device loop of `initable_init`: devices whose `FEEDBACKD_UDEV_ATTR`
property is absent or differs from `FEEDBACKD_UDEV_VAL_LED` are skipped
(`g_strcmp0` against the marker), the rest are probed and successful probes
are appended in order. -/
def collect_leds (devs : List GUdevDevice) : List FbdDevLed :=
  match devs with
  | [] => []
  | dev :: rest =>
    if dev.feedbackdProperty = some FEEDBACKD_UDEV_VAL_LED then
      match probe_led dev with
      | some led => led :: collect_leds rest
      | none => collect_leds rest
    else
      collect_leds rest

/-- single insertion step of the stable descending-priority sort.  GLib's
`g_slist_sort` with `priority_cmp` (`prio_b - prio_a`) is a stable sort
placing higher priorities first; a stable sort's output is determined by
the ordering alone, so it is embedded as a stable insertion sort: a new
element goes after all already-placed elements of priority ≥ its own. -/
def led_insert (led : FbdDevLed) (sorted : List FbdDevLed) : List FbdDevLed :=
  match sorted with
  | [] => [led]
  | x :: xs =>
    if x.priority < led.priority then led :: x :: xs else x :: led_insert led xs

/-- g_slist_sort (usable_leds, priority_cmp): stable sort by descending
`priority`. -/
def sort_leds_by_priority (leds : List FbdDevLed) : List FbdDevLed :=
  leds.foldl (fun acc led => led_insert led acc) []

/-- initable_init (src/fbd-dev-leds.c): enumerate the "leds" subsystem,
collect the usable LEDs, sort them by priority and fail with an error when
none was found. -/
def initable_init (devs : List GUdevDevice) : Except String (List FbdDevLed) :=
  let usable := collect_leds devs
  match usable with
  | [] => .error "No usable LEDs found"
  | _ => .ok (sort_leds_by_priority usable)

/-! ## multicolor LED driver (src/fbd-dev-led-multicolor.c) -/

/-- FbdDevLedMulticolorPrivate: the channel positions of red, green and blue
inside the `multi_intensity` tuple, as discovered by the probe.  The
private struct is allocated zeroed (`G_DEFINE_TYPE_WITH_PRIVATE`). -/
structure FbdDevLedMulticolorPrivate where
  red_index : Nat
  green_index : Nat
  blue_index : Nat
deriving DecidableEq, Repr

/-- index-scanning loop of `fbd_dev_led_multicolor_probe`: walk the
`multi_index` strv; a recognized color name records the running counter as
that color's channel position and advances the counter, an unrecognized
name only logs a warning (the counter does not advance). -/
def multicolor_index_loop (index : List String) (counter : Nat)
    (priv : FbdDevLedMulticolorPrivate) : FbdDevLedMulticolorPrivate :=
  match index with
  | [] => priv
  | s :: rest =>
    if s = "red" then
      multicolor_index_loop rest (counter + 1) { priv with red_index := counter }
    else if s = "green" then
      multicolor_index_loop rest (counter + 1) { priv with green_index := counter }
    else if s = "blue" then
      multicolor_index_loop rest (counter + 1) { priv with blue_index := counter }
    else
      multicolor_index_loop rest counter priv

/-- fbd_dev_led_multicolor_probe: fail when `multi_index` is absent, has a
length other than 3, or `max_brightness` is 0; otherwise record the
discovered channel positions (starting from the zeroed private struct) and
the LED's max brightness. -/
def fbd_dev_led_multicolor_probe (index : Option (List String)) (max_brightness : Nat) :
    Except String (FbdDevLedMulticolorPrivate × Nat) :=
  match index with
  | none => .error "is no multicolor LED"
  | some idx =>
    if idx.length ≠ 3 then .error "is no multicolor RGB LED"
    else if max_brightness = 0 then .error "has no max_brightness"
    else .ok (multicolor_index_loop idx 0 ⟨0, 0, 0⟩, max_brightness)

/-- sysfs writes performed by `fbd_dev_led_multicolor_set_color`: the
`brightness` value written via `fbd_dev_led_set_brightness` and the
`multi_intensity` channel tuple together with its rendered string. -/
structure MulticolorWrite where
  brightness : Nat
  colors : List Nat
  intensity : String
deriving DecidableEq, Repr

/-- rendering of the `multi_intensity` string: `"%u %u %u\n"` over the
channel tuple. -/
def multi_intensity_string (colors : List Nat) : String :=
  toString (colors.getD 0 0) ++ " " ++ toString (colors.getD 1 0) ++ " "
    ++ toString (colors.getD 2 0) ++ "\n"

/-- fbd_dev_led_multicolor_set_color: build the channel tuple from a zeroed
`colors[3]` array using the probed channel positions — named colors use 0
or `max_brightness` per channel, an rgb request uses the requested r/g/b —
then set `brightness` to `max_brightness` and write `multi_intensity`.
Unhandled colors (flash) only log a warning and return FALSE (`none`). -/
def fbd_dev_led_multicolor_set_color (priv : FbdDevLedMulticolorPrivate)
    (max_brightness : Nat) (color : FbdFeedbackLedColor) (rgb : FbdLedRgbColor) :
    Option MulticolorWrite :=
  let colors : List Nat := [0, 0, 0]
  let colors? : Option (List Nat) :=
    match color with
    | .white =>
      some (((colors.set priv.red_index max_brightness).set
        priv.green_index max_brightness).set priv.blue_index max_brightness)
    | .red =>
      some (((colors.set priv.red_index max_brightness).set
        priv.green_index 0).set priv.blue_index 0)
    | .green =>
      some (((colors.set priv.red_index 0).set
        priv.green_index max_brightness).set priv.blue_index 0)
    | .blue =>
      some (((colors.set priv.red_index 0).set
        priv.green_index 0).set priv.blue_index max_brightness)
    | .rgb =>
      some (((colors.set priv.red_index rgb.r).set
        priv.green_index rgb.g).set priv.blue_index rgb.b)
    | _ => none
  match colors? with
  | none => none
  | some cs =>
    some { brightness := max_brightness
           colors := cs
           intensity := multi_intensity_string cs }

/-! ## client-side event object (libfeedback/lfb-event.c) -/

/-- LfbEventState: the client-visible lifecycle states of an `LfbEvent`. -/
inductive LfbEventState where
  | evNone
  | evRunning
  | evEnded
  | evErrored
deriving DecidableEq, Repr

/-- LfbEvent: the fields of the client event object relevant to the
feedback-ended path: the current server-allocated event id (0 when none),
the lifecycle state, the recorded end reason, and the id of the signal
handler connected to the proxy's FeedbackEnded signal (0 when
disconnected). -/
structure LfbEvent where
  id : Nat
  state : LfbEventState
  end_reason : Nat
  handler_id : Nat
deriving DecidableEq, Repr

/-- lfb_event_init: a fresh event has timeout -1, state NONE and end reason
NATURAL (encoded 0); no id and no handler are set. -/
def lfb_event_init : LfbEvent :=
  { id := 0, state := .evNone, end_reason := 0, handler_id := 0 }

/-- on_feedback_ended (libfeedback/lfb-event.c): a FeedbackEnded bus signal
whose event id differs from the event's current id is ignored; on a match
the end reason and the Ended state are recorded, the feedback-ended signal
is emitted (the returned Bool), the stored id is cleared and the proxy
signal handler disconnected. -/
def on_feedback_ended (self : LfbEvent) (event_id reason : Nat) :
    LfbEvent × Bool :=
  if event_id ≠ self.id then (self, false)
  else
    ({ self with
        end_reason := reason
        state := .evEnded
        id := 0
        handler_id := 0 }, true)

/-- delivery of a FeedbackEnded bus signal to the event: the handler runs
only while it is connected to the proxy (`handler_id ≠ 0`); after
`g_signal_handler_disconnect` the signal no longer reaches the event. -/
def deliver_feedback_ended (self : LfbEvent) (sig : Nat × Nat) :
    LfbEvent × Bool :=
  if self.handler_id = 0 then (self, false)
  else on_feedback_ended self sig.1 sig.2

/-- delivery of a sequence of FeedbackEnded bus signals, counting how often
the event emitted its feedback-ended signal. -/
def deliver_all (self : LfbEvent) (sigs : List (Nat × Nat)) : LfbEvent × Nat :=
  match sigs with
  | [] => (self, 0)
  | sig :: rest =>
    let (next, emitted) := deliver_feedback_ended self sig
    let (final, count) := deliver_all next rest
    (final, (if emitted then 1 else 0) + count)

/-- lfb_event_trigger_feedback (libfeedback/lfb-event.c): connect the
proxy's feedback-ended handler when not yet connected (the fresh GLib
handler id is nonzero), then issue the synchronous TriggerFeedback call;
on success record the returned id and enter Running, otherwise enter
Errored. -/
def lfb_event_trigger_feedback (self : LfbEvent) (fresh_handler : Nat)
    (success : Bool) (new_id : Nat) : LfbEvent :=
  let connected :=
    if self.handler_id = 0 then { self with handler_id := fresh_handler } else self
  if success then
    { connected with id := new_id, state := .evRunning }
  else
    { connected with state := .evErrored }

/-! ## daemon main and callbacks (src/fbd.c) -/

/-- ExportedIface: the DBus interface skeletons `bus_acquired_cb` may
export. -/
inductive ExportedIface where
  | feedback
  | haptic
deriving DecidableEq, Repr

/-- FbdFeedbackManager as consumed by src/fbd.c.  Modelled from the spec:
`fbd_feedback_manager_get_haptic_manager` (fbd-feedback-manager.c is not
under src/) returns the haptic manager when vibration hardware exists and
NULL otherwise; only that presence matters here. -/
structure FbdFeedbackManager where
  hapticManager : Option Unit
deriving DecidableEq, Repr

/-- bus_acquired_cb (src/fbd.c): export the Feedback interface skeleton,
then export the Haptic interface skeleton only when the feedback manager
reports a haptic manager. -/
def bus_acquired_cb (manager : FbdFeedbackManager) : List ExportedIface :=
  [.feedback] ++
    (match manager.hapticManager with
     | some _ => [.haptic]
     | none => [])

/-- FbdDaemonState: the daemon state the signal handlers can observe — the
loaded theme, the in-flight events, the device state, and whether a quit of
the main loop has been scheduled. -/
structure FbdDaemonState where
  theme : String
  events : List Nat
  devices : List Nat
  quitScheduled : Bool
deriving DecidableEq, Repr

/-- reload_cb (src/fbd.c), the SIGHUP handler: invoke
`fbd_feedback_manager_load_theme` (modelled from the spec as an abstract
theme reloader, since fbd-feedback-manager.c is not under src/) and return
TRUE so the handler stays installed.  Nothing besides the theme is
touched. -/
def reload_cb (load_theme : String → String) (s : FbdDaemonState) :
    FbdDaemonState × Bool :=
  ({ s with theme := load_theme s.theme }, true)

/-- quit_cb (src/fbd.c), the SIGTERM/SIGINT handler: schedule
`g_main_loop_quit` on the loop via an idle source and return FALSE.  The
handlers are dispatched from the running main loop, so the loop exists. -/
def quit_cb (s : FbdDaemonState) : FbdDaemonState × Bool :=
  ({ s with quitScheduled := true }, false)

/-- arguments `name_lost_cb` receives from GDBus: whether a name was
passed, whether a live connection was passed, and whether
`name_acquired_cb` had run before (the `name_acquired` static). -/
structure NameLostInfo where
  namePresent : Bool
  connectionPresent : Bool
  acquiredBefore : Bool
deriving DecidableEq, Repr

/-- name_lost_cb (src/fbd.c): with no name the session bus is unreachable
and the exit status becomes EXIT_FAILURE; with no connection the DBus
connection merely closed; otherwise losing the name before it was ever
acquired sets EXIT_FAILURE while losing it afterwards only logs.  In every
case the main loop is quit (the returned Bool). -/
def name_lost_cb (info : NameLostInfo) (ret : Nat) : Nat × Bool :=
  if !info.namePresent then (1, true)
  else if !info.connectionPresent then (ret, true)
  else if info.acquiredBefore then (ret, true)
  else (1, true)

/-- RunOutcome: how the daemon's main loop run ends — quit by a signal
handler (name never lost) or quit by `name_lost_cb`. -/
inductive RunOutcome where
  | signalQuit
  | nameLost (info : NameLostInfo)
deriving DecidableEq, Repr

/-- main (src/fbd.c): option-parsing failure exits 1; `--version` prints
and exits EXIT_SUCCESS; otherwise `ret` starts at EXIT_SUCCESS and is only
ever changed by `name_lost_cb` before the loop quits. -/
def fbd_main (parse_ok : Bool) (opt_version : Bool) (outcome : RunOutcome) : Nat :=
  if !parse_ok then 1
  else if opt_version then 0
  else
    match outcome with
    | .signalQuit => 0
    | .nameLost info => (name_lost_cb info 0).1

/-! ## periodic LED feedback (src/fbd-dev-leds.c) -/

/-- LedEffect: the observable device actions of
`fbd_dev_leds_start_periodic` — setting a LED's color and starting its
periodic pattern. -/
inductive LedEffect where
  | setColor (led : Nat) (color : FbdFeedbackLedColor) (rgb : FbdLedRgbColor)
  | startPeriodic (led : Nat) (max_brightness_percentage : Nat) (freq : Nat)
deriving DecidableEq, Repr

/-- fbd_dev_leds_start_periodic (src/fbd-dev-leds.c): the
`g_return_val_if_fail (max_brightness_percentage <= 100.0, FALSE)` guard
rejects percentages above 100 before anything happens; then the LED is
selected via `find_led_by_color` (FALSE when none), its color is set and
its periodic pattern started, returning `fbd_dev_led_start_periodic`'s
result.  The second component lists the device actions performed. -/
def fbd_dev_leds_start_periodic (leds : List FbdDevLed)
    (color : FbdFeedbackLedColor) (rgb : FbdLedRgbColor)
    (max_brightness_percentage freq : Nat) : Bool × List LedEffect :=
  if max_brightness_percentage > 100 then (false, [])
  else
    match find_led_by_color leds color with
    | none => (false, [])
    | some led =>
      (led.startPeriodicOk,
        [.setColor led.id color rgb,
         .startPeriodic led.id max_brightness_percentage freq])

/-! ## sound device (src/fbd-dev-sound.c) -/

/-- FbdAsyncData: the per-playback bookkeeping — the feedback object the
playback belongs to and the state of its GCancellable. -/
structure FbdAsyncData where
  feedback : Nat
  cancelled : Bool
deriving DecidableEq, Repr

/-- FbdDevSound: the sound device with its `playbacks` hash table keyed by
feedback-object identity (`g_direct_hash`, pointer identity — modelled as
`Nat` identities); association-list entries have unique keys. -/
structure FbdDevSound where
  playbacks : List (Nat × FbdAsyncData)
deriving DecidableEq, Repr

/-- g_hash_table_lookup on the playbacks table. -/
def lookup_playback (tbl : List (Nat × FbdAsyncData)) (feedback : Nat) :
    Option FbdAsyncData :=
  (tbl.find? (fun e => e.1 = feedback)).map (fun e => e.2)

/-- g_hash_table_insert: a fresh value for a key replaces any existing
entry for the same key. -/
def insert_playback (tbl : List (Nat × FbdAsyncData)) (feedback : Nat)
    (data : FbdAsyncData) : List (Nat × FbdAsyncData) :=
  (feedback, data) :: tbl.filter (fun e => ¬(e.1 = feedback))

/-- g_hash_table_remove: drop the entry for the key. -/
def remove_playback (tbl : List (Nat × FbdAsyncData)) (feedback : Nat) :
    List (Nat × FbdAsyncData) :=
  tbl.filter (fun e => ¬(e.1 = feedback))

/-- g_cancellable_cancel on the cancellable held by the entry of
`feedback`: only that entry's cancellable changes state. -/
def cancel_playback (tbl : List (Nat × FbdAsyncData)) (feedback : Nat) :
    List (Nat × FbdAsyncData) :=
  tbl.map (fun e =>
    if e.1 = feedback then (e.1, { e.2 with cancelled := true }) else e)

/-- fbd_dev_sound_play (src/fbd-dev-sound.c): allocate fresh async data
with a fresh (uncancelled) cancellable, insert it into the playbacks table
keyed by the feedback, start the platform playback and return TRUE. -/
def fbd_dev_sound_play (self : FbdDevSound) (feedback : Nat) :
    FbdDevSound × Bool :=
  ({ playbacks :=
      insert_playback self.playbacks feedback
        { feedback := feedback, cancelled := false } }, true)

/-- fbd_dev_sound_stop (src/fbd-dev-sound.c): look the feedback up in the
playbacks table; when absent return FALSE, otherwise cancel that entry's
cancellable and return TRUE. -/
def fbd_dev_sound_stop (self : FbdDevSound) (feedback : Nat) :
    FbdDevSound × Bool :=
  match lookup_playback self.playbacks feedback with
  | none => (self, false)
  | some _ => ({ playbacks := cancel_playback self.playbacks feedback }, true)

/-- on_sound_play_finished_callback (src/fbd-dev-sound.c): when a playback
finishes (completed, not found, or cancelled), the feedback is removed
from the playbacks table and only then is the completion callback invoked
("Order matters here"). -/
def on_sound_play_finished (α : Type) (self : FbdDevSound) (feedback : Nat)
    (callback : FbdDevSound → FbdDevSound × α) : FbdDevSound × α :=
  callback { playbacks := remove_playback self.playbacks feedback }

/-- descending-priority ordering used to state sortedness of the LED list:
`a` may come before `b` when `b`'s priority is at most `a`'s. -/
def led_prio_ge (a b : FbdDevLed) : Prop := b.priority ≤ a.priority

/-- concrete probed LED used for evaluating `initable_init` on a concrete
input: priority 5. -/
def witnessLedA : FbdDevLed :=
  { id := 100, priority := 5, supportsColor := fun _ => false, startPeriodicOk := true }

/-- concrete probed LED used for evaluating `initable_init` on a concrete
input: priority 10. -/
def witnessLedB : FbdDevLed :=
  { id := 101, priority := 10, supportsColor := fun _ => false, startPeriodicOk := true }

/-- concrete udev device whose generic-plain probe yields `witnessLedA`. -/
def witnessDevA : GUdevDevice :=
  { feedbackdProperty := some FEEDBACKD_UDEV_VAL_LED
    probeResult := fun v => if v = .plain then some witnessLedA else none }

/-- concrete udev device whose QCOM-multicolor probe yields `witnessLedB`. -/
def witnessDevB : GUdevDevice :=
  { feedbackdProperty := some FEEDBACKD_UDEV_VAL_LED
    probeResult := fun v => if v = .qcomMulticolor then some witnessLedB else none }

/-- concrete udev device without the opt-in marker property. -/
def witnessDevNoMarker : GUdevDevice :=
  { feedbackdProperty := none
    probeResult := fun _ => some witnessLedA }

end Fbd

namespace Fbd

/-! ## theorems for claim C1 -/

theorem find_first_supporting_eq_find? (leds : List FbdDevLed)
    (color : FbdFeedbackLedColor) :
    find_first_supporting leds color = leds.find? (fun led => led.supportsColor color) := by
  induction leds with
  | nil => rfl
  | cons led rest ih =>
    simp only [find_first_supporting, List.find?]
    by_cases h : led.supportsColor color = true
    · simp [h]
    · simp only [Bool.not_eq_true] at h
      simp [h, ih]

theorem find_first_non_flash_eq_find? (leds : List FbdDevLed) :
    find_first_non_flash leds = leds.find? (fun led => !(led.supportsColor .flash)) := by
  induction leds with
  | nil => rfl
  | cons led rest ih =>
    simp only [find_first_non_flash, List.find?]
    by_cases h : led.supportsColor .flash = true
    · simp [h, ih]
    · simp only [Bool.not_eq_true] at h
      simp [h]

/-- C1: `find_led_by_color` returns the first LED supporting the requested
color, else the first LED not supporting FLASH, else nothing — i.e. it
coincides with the spec's `find_for_color`; and on the example list
[plain-white prio 10, multicolor prio 5], red selects the multicolor LED
and white selects the plain-white LED. -/
theorem find_led_by_color_matches_spec :
    (∀ (leds : List FbdDevLed) (color : FbdFeedbackLedColor),
      find_led_by_color leds color = find_for_color_spec leds color)
    ∧ find_led_by_color exampleLedList .red = some exampleMulticolorLed
    ∧ find_led_by_color exampleLedList .white = some examplePlainWhiteLed := by
  refine ⟨fun leds color => ?_, rfl, rfl⟩
  cases leds with
  | nil => rfl
  | cons led rest =>
    simp only [find_led_by_color, find_for_color_spec,
      find_first_supporting_eq_find?, find_first_non_flash_eq_find?]
    cases (led :: rest).find? (fun l => l.supportsColor color) <;> rfl

/-! ## theorem for claim C9 -/

/-- C9: `fbd_dev_leds_start_periodic` rejects any
max_brightness_percentage above 100 with FALSE and no device action; below
that bound it returns FALSE with no device action when the color search
finds no usable LED, and otherwise sets the selected LED's color and
starts its periodic pattern. -/
theorem start_periodic_guard :
    ∀ (leds : List FbdDevLed) (color : FbdFeedbackLedColor)
      (rgb : FbdLedRgbColor) (pct freq : Nat),
      (pct > 100 →
        fbd_dev_leds_start_periodic leds color rgb pct freq = (false, []))
      ∧ (pct ≤ 100 → find_led_by_color leds color = none →
          fbd_dev_leds_start_periodic leds color rgb pct freq = (false, []))
      ∧ (pct ≤ 100 → ∀ led : FbdDevLed, find_led_by_color leds color = some led →
          fbd_dev_leds_start_periodic leds color rgb pct freq
            = (led.startPeriodicOk,
                [.setColor led.id color rgb, .startPeriodic led.id pct freq])) := by
  intro leds color rgb pct freq
  refine ⟨fun hgt => ?_, fun hle hnone => ?_, fun hle led hsome => ?_⟩
  · simp [fbd_dev_leds_start_periodic, hgt]
  · simp [fbd_dev_leds_start_periodic, Nat.not_lt.mpr hle, hnone]
  · simp [fbd_dev_leds_start_periodic, Nat.not_lt.mpr hle, hsome]

/-- evaluation of `start_periodic_guard` on the spec's example LED list: a
percentage of 101 is rejected, and a red request at 50 percent selects the
multicolor LED, sets its color and starts its pattern. -/
theorem start_periodic_guard_witness :
    fbd_dev_leds_start_periodic exampleLedList .red ⟨0, 0, 0⟩ 101 1000 = (false, [])
    ∧ fbd_dev_leds_start_periodic exampleLedList .red ⟨0, 0, 0⟩ 50 1000
        = (exampleMulticolorLed.startPeriodicOk,
            [.setColor exampleMulticolorLed.id .red ⟨0, 0, 0⟩,
             .startPeriodic exampleMulticolorLed.id 50 1000]) :=
  ⟨(start_periodic_guard exampleLedList .red ⟨0, 0, 0⟩ 101 1000).1 (by decide),
    (start_periodic_guard exampleLedList .red ⟨0, 0, 0⟩ 50 1000).2.2 (by decide)
      exampleMulticolorLed rfl⟩

/-! ## lemmas and theorems for claims C8 and C10 -/

theorem lookup_cancel_self (tbl : List (Nat × FbdAsyncData)) (fb : Nat) :
    lookup_playback (cancel_playback tbl fb) fb =
      (lookup_playback tbl fb).map (fun d => { d with cancelled := true }) := by
  induction tbl with
  | nil => rfl
  | cons e rest ih =>
    by_cases hef : e.1 = fb <;>
      simp [lookup_playback, cancel_playback, List.find?_cons, hef] at ih ⊢ <;>
      simpa [hef] using ih

theorem lookup_cancel_other (tbl : List (Nat × FbdAsyncData)) (fb other : Nat)
    (h : other ≠ fb) :
    lookup_playback (cancel_playback tbl fb) other = lookup_playback tbl other := by
  induction tbl with
  | nil => rfl
  | cons e rest ih =>
    by_cases hef : e.1 = fb
    · have hne : ¬(e.1 = other) := fun he => h (he ▸ hef ▸ rfl)
      simp only [lookup_playback, cancel_playback, List.map_cons, if_pos hef] at ih ⊢
      rw [List.find?_cons_of_neg _ (by simpa using hne),
        List.find?_cons_of_neg _ (by simpa using hne)]
      exact ih
    · simp only [lookup_playback, cancel_playback, List.map_cons, if_neg hef] at ih ⊢
      by_cases hoe : e.1 = other
      · rw [List.find?_cons_of_pos _ (by simpa using hoe),
          List.find?_cons_of_pos _ (by simpa using hoe)]
      · rw [List.find?_cons_of_neg _ (by simpa using hoe),
          List.find?_cons_of_neg _ (by simpa using hoe)]
        exact ih

theorem lookup_remove_self (tbl : List (Nat × FbdAsyncData)) (fb : Nat) :
    lookup_playback (remove_playback tbl fb) fb = none := by
  induction tbl with
  | nil => rfl
  | cons e rest ih =>
    by_cases hef : e.1 = fb
    · simpa [remove_playback, hef] using ih
    · have hstep : remove_playback (e :: rest) fb = e :: remove_playback rest fb := by
        simp [remove_playback, hef]
      have hcons : lookup_playback (e :: remove_playback rest fb) fb
          = lookup_playback (remove_playback rest fb) fb := by
        simp only [lookup_playback]
        rw [List.find?_cons_of_neg _ (by simpa using hef)]
      rw [hstep, hcons]
      exact ih

theorem lookup_insert_self (tbl : List (Nat × FbdAsyncData)) (fb : Nat)
    (data : FbdAsyncData) :
    lookup_playback (insert_playback tbl fb data) fb = some data := by
  simp [lookup_playback, insert_playback]

/-- C8: sound stop is keyed by feedback-object identity — `stop` returns
FALSE exactly when the feedback has no in-flight playback in the table
(and then changes nothing), and otherwise cancels that feedback's own
cancellable while every other feedback's playback entry is untouched. -/
theorem dev_sound_stop_keyed :
    (∀ (self : FbdDevSound) (feedback : Nat),
        (fbd_dev_sound_stop self feedback).2 = false
          ↔ lookup_playback self.playbacks feedback = none)
    ∧ (∀ (self : FbdDevSound) (feedback : Nat),
        (fbd_dev_sound_stop self feedback).2 = false →
        (fbd_dev_sound_stop self feedback).1 = self)
    ∧ (∀ (self : FbdDevSound) (feedback : Nat) (data : FbdAsyncData),
        lookup_playback self.playbacks feedback = some data →
        (fbd_dev_sound_stop self feedback).2 = true
        ∧ lookup_playback (fbd_dev_sound_stop self feedback).1.playbacks feedback
            = some { data with cancelled := true }
        ∧ (∀ other : Nat, other ≠ feedback →
            lookup_playback (fbd_dev_sound_stop self feedback).1.playbacks other
              = lookup_playback self.playbacks other)) := by
  refine ⟨?_, ?_, ?_⟩
  · intro self feedback
    cases h : lookup_playback self.playbacks feedback <;>
      simp [fbd_dev_sound_stop, h]
  · intro self feedback hfalse
    cases h : lookup_playback self.playbacks feedback
    · simp [fbd_dev_sound_stop, h]
    · simp [fbd_dev_sound_stop, h] at hfalse
  · intro self feedback data h
    refine ⟨by simp [fbd_dev_sound_stop, h], ?_, ?_⟩
    · simp [fbd_dev_sound_stop, h, lookup_cancel_self]
    · intro other hne
      simp [fbd_dev_sound_stop, h, lookup_cancel_other _ _ _ hne]

/-- evaluation of `dev_sound_stop_keyed` on a table holding playbacks for
feedbacks 5 and 6: stopping 5 succeeds, cancels 5's cancellable and leaves
6's entry untouched. -/
theorem dev_sound_stop_keyed_witness :
    (fbd_dev_sound_stop ⟨[(5, ⟨5, false⟩), (6, ⟨6, false⟩)]⟩ 5).2 = true
    ∧ lookup_playback
        (fbd_dev_sound_stop ⟨[(5, ⟨5, false⟩), (6, ⟨6, false⟩)]⟩ 5).1.playbacks 5
        = some ⟨5, true⟩
    ∧ lookup_playback
        (fbd_dev_sound_stop ⟨[(5, ⟨5, false⟩), (6, ⟨6, false⟩)]⟩ 5).1.playbacks 6
        = lookup_playback [(5, ⟨5, false⟩), (6, ⟨6, false⟩)] 6 := by
  have h := dev_sound_stop_keyed.2.2 ⟨[(5, ⟨5, false⟩), (6, ⟨6, false⟩)]⟩ 5 ⟨5, false⟩ rfl
  exact ⟨h.1, h.2.1, h.2.2 6 (by decide)⟩

/-- C10: the playbacks table holds a feedback exactly while its playback
is in flight — `play` inserts the feedback, and on completion the feedback
is removed from the table strictly before the completion callback runs, so
the callback observes a state in which that feedback has no in-flight
playback: a stop from the callback returns FALSE and the same feedback can
be played again. -/
theorem playback_table_inflight :
    (∀ (self : FbdDevSound) (feedback : Nat),
        lookup_playback (fbd_dev_sound_play self feedback).1.playbacks feedback
          = some { feedback := feedback, cancelled := false })
    ∧ (∀ (α : Type) (self : FbdDevSound) (feedback : Nat)
        (callback : FbdDevSound → FbdDevSound × α),
        on_sound_play_finished α self feedback callback
          = callback { playbacks := remove_playback self.playbacks feedback })
    ∧ (∀ (self : FbdDevSound) (feedback : Nat),
        lookup_playback (remove_playback self.playbacks feedback) feedback = none
        ∧ fbd_dev_sound_stop
            { playbacks := remove_playback self.playbacks feedback } feedback
            = ({ playbacks := remove_playback self.playbacks feedback }, false)
        ∧ lookup_playback
            (fbd_dev_sound_play
              { playbacks := remove_playback self.playbacks feedback }
              feedback).1.playbacks feedback
            = some { feedback := feedback, cancelled := false }) := by
  refine ⟨?_, fun α self feedback callback => rfl, ?_⟩
  · intro self feedback
    exact lookup_insert_self self.playbacks feedback _
  · intro self feedback
    refine ⟨lookup_remove_self self.playbacks feedback, ?_, ?_⟩
    · simp [fbd_dev_sound_stop, lookup_remove_self]
    · exact lookup_insert_self _ feedback _

/-! ## lemmas and theorem for claim C4 -/

theorem deliver_all_disconnected (self : LfbEvent) (sigs : List (Nat × Nat))
    (h : self.handler_id = 0) : deliver_all self sigs = (self, 0) := by
  induction sigs with
  | nil => rfl
  | cons sig rest ih => simp [deliver_all, deliver_feedback_ended, h, ih]

/-- C4: a client event emits feedback-ended at most once per triggered
feedback: over any sequence of FeedbackEnded bus signals at most one
emission happens; a signal with a non-matching id leaves the event
untouched; a matching signal records the reason and the Ended state,
emits, clears the stored id and disconnects the handler; a disconnected
handler never runs; and from a freshly triggered event the matching signal
emits once after which no further signal (same id included) emits again. -/
theorem feedback_ended_emitted_once :
    (∀ (self : LfbEvent) (sigs : List (Nat × Nat)), (deliver_all self sigs).2 ≤ 1)
    ∧ (∀ (self : LfbEvent) (event_id reason : Nat), event_id ≠ self.id →
        on_feedback_ended self event_id reason = (self, false))
    ∧ (∀ (self : LfbEvent) (reason : Nat),
        on_feedback_ended self self.id reason
          = ({ self with
                end_reason := reason, state := .evEnded,
                id := 0, handler_id := 0 }, true))
    ∧ (∀ (self : LfbEvent) (sig : Nat × Nat), self.handler_id = 0 →
        deliver_feedback_ended self sig = (self, false))
    ∧ (∀ (self : LfbEvent) (fresh_handler new_id reason : Nat)
        (sigs : List (Nat × Nat)), fresh_handler ≠ 0 →
        deliver_feedback_ended
            (lfb_event_trigger_feedback self fresh_handler true new_id)
            (new_id, reason)
          = ({ lfb_event_trigger_feedback self fresh_handler true new_id with
                end_reason := reason, state := .evEnded,
                id := 0, handler_id := 0 }, true)
        ∧ deliver_all
            ({ lfb_event_trigger_feedback self fresh_handler true new_id with
                end_reason := reason, state := .evEnded,
                id := 0, handler_id := 0 }) sigs
          = ({ lfb_event_trigger_feedback self fresh_handler true new_id with
                end_reason := reason, state := .evEnded,
                id := 0, handler_id := 0 }, 0)) := by
  have hmis : ∀ (self : LfbEvent) (event_id reason : Nat), event_id ≠ self.id →
      on_feedback_ended self event_id reason = (self, false) := by
    intro self event_id reason h
    simp [on_feedback_ended, h]
  have hmatch : ∀ (self : LfbEvent) (reason : Nat),
      on_feedback_ended self self.id reason
        = ({ self with
              end_reason := reason, state := .evEnded,
              id := 0, handler_id := 0 }, true) := by
    intro self reason
    simp [on_feedback_ended]
  have hdis : ∀ (self : LfbEvent) (sig : Nat × Nat), self.handler_id = 0 →
      deliver_feedback_ended self sig = (self, false) := by
    intro self sig h
    simp [deliver_feedback_ended, h]
  refine ⟨?_, hmis, hmatch, hdis, ?_⟩
  · intro self sigs
    induction sigs generalizing self with
    | nil => simp [deliver_all]
    | cons sig rest ih =>
      by_cases h0 : self.handler_id = 0
      · rw [deliver_all_disconnected self (sig :: rest) h0]
        simp
      · by_cases hid : sig.1 ≠ self.id
        · simp only [deliver_all, deliver_feedback_ended, if_neg h0, hmis self sig.1 sig.2 hid]
          simpa using ih self
        · simp only [ne_eq, not_not] at hid
          simp only [deliver_all, deliver_feedback_ended, if_neg h0, hid, hmatch self sig.2]
          rw [deliver_all_disconnected _ rest rfl]
          simp
  · intro self fresh_handler new_id reason sigs hfresh
    have hhand : (lfb_event_trigger_feedback self fresh_handler true new_id).handler_id ≠ 0 := by
      by_cases hs : self.handler_id = 0 <;>
        simp [lfb_event_trigger_feedback, hs, hfresh]
    have hid : (lfb_event_trigger_feedback self fresh_handler true new_id).id = new_id := by
      by_cases hs : self.handler_id = 0 <;>
        simp [lfb_event_trigger_feedback, hs]
    refine ⟨?_, deliver_all_disconnected _ sigs rfl⟩
    have hm := hmatch (lfb_event_trigger_feedback self fresh_handler true new_id) reason
    rw [hid] at hm
    simpa [deliver_feedback_ended, if_neg hhand] using hm

/-- evaluation of `feedback_ended_emitted_once` at a concrete event: a
mismatching signal id is ignored and, after triggering with server id 7, a
matching signal followed by a repeat of the same signal yields exactly one
emission. -/
theorem feedback_ended_emitted_once_witness :
    on_feedback_ended { id := 7, state := .evRunning, end_reason := 0, handler_id := 3 } 4 2
      = ({ id := 7, state := .evRunning, end_reason := 0, handler_id := 3 }, false)
    ∧ deliver_feedback_ended
        (lfb_event_trigger_feedback lfb_event_init 3 true 7) (7, 2)
        = ({ lfb_event_trigger_feedback lfb_event_init 3 true 7 with
              end_reason := 2, state := .evEnded, id := 0, handler_id := 0 }, true) :=
  ⟨feedback_ended_emitted_once.2.1
      { id := 7, state := .evRunning, end_reason := 0, handler_id := 3 } 4 2 (by decide),
    (feedback_ended_emitted_once.2.2.2.2 lfb_event_init 3 7 2 [(7, 2)] (by decide)).1⟩

/-! ## theorem for claim C5 -/

/-- C5: on bus acquisition the Feedback interface is always exported and
the Haptic interface is exported exactly when the feedback manager reports
a haptic manager. -/
theorem bus_acquired_exports :
    ∀ manager : FbdFeedbackManager,
      ExportedIface.feedback ∈ bus_acquired_cb manager
      ∧ (ExportedIface.haptic ∈ bus_acquired_cb manager
          ↔ manager.hapticManager ≠ none) := by
  intro m
  cases hm : m.hapticManager <;> simp [bus_acquired_cb, hm]

/-! ## theorem for claim C6 -/

/-- C6: the SIGHUP handler reloads the theme and nothing else — events,
devices and the quit flag are untouched — and returns TRUE so it stays
installed; the SIGTERM/SIGINT handler schedules a quit of the main loop
and returns FALSE. -/
theorem sighup_reloads_theme_only :
    ∀ (load_theme : String → String) (s : FbdDaemonState),
      (reload_cb load_theme s).1.theme = load_theme s.theme
      ∧ (reload_cb load_theme s).1.events = s.events
      ∧ (reload_cb load_theme s).1.devices = s.devices
      ∧ (reload_cb load_theme s).1.quitScheduled = s.quitScheduled
      ∧ (reload_cb load_theme s).2 = true
      ∧ (quit_cb s).1.quitScheduled = true
      ∧ (quit_cb s).1.theme = s.theme
      ∧ (quit_cb s).2 = false :=
  fun _ _ => ⟨rfl, rfl, rfl, rfl, rfl, rfl, rfl, rfl⟩

/-! ## theorem for claim C7 -/

/-- C7: the daemon exits 0 on a normal run (version print or a signal
quit), exits 1 on an option-parsing failure, when the session bus is
unreachable or when the name is lost before ever being acquired, and exits
0 — while still quitting the loop — when the name is lost after having
been acquired. -/
theorem fbd_main_exit_codes :
    (∀ (opt_version : Bool) (outcome : RunOutcome),
        fbd_main false opt_version outcome = 1)
    ∧ (∀ outcome : RunOutcome, fbd_main true true outcome = 0)
    ∧ fbd_main true false .signalQuit = 0
    ∧ (∀ info : NameLostInfo, info.namePresent = false →
        fbd_main true false (.nameLost info) = 1)
    ∧ (∀ info : NameLostInfo, info.namePresent = true →
        info.connectionPresent = true → info.acquiredBefore = false →
        fbd_main true false (.nameLost info) = 1)
    ∧ (∀ info : NameLostInfo, info.namePresent = true → info.acquiredBefore = true →
        fbd_main true false (.nameLost info) = 0 ∧ (name_lost_cb info 0).2 = true) := by
  refine ⟨fun v o => rfl, fun o => rfl, rfl, ?_, ?_, ?_⟩
  · intro info h
    simp [fbd_main, name_lost_cb, h]
  · intro info hn hc ha
    simp [fbd_main, name_lost_cb, hn, hc, ha]
  · intro info hn ha
    cases hc : info.connectionPresent <;>
      simp [fbd_main, name_lost_cb, hn, hc, ha]

/-- evaluation of `fbd_main_exit_codes` on concrete bus outcomes: no
session bus exits 1, name lost before acquisition exits 1, name lost after
acquisition exits 0 and quits the loop. -/
theorem fbd_main_exit_codes_witness :
    fbd_main true false (.nameLost ⟨false, false, false⟩) = 1
    ∧ fbd_main true false (.nameLost ⟨true, true, false⟩) = 1
    ∧ (fbd_main true false (.nameLost ⟨true, true, true⟩) = 0
        ∧ (name_lost_cb ⟨true, true, true⟩ 0).2 = true) :=
  ⟨fbd_main_exit_codes.2.2.2.1 ⟨false, false, false⟩ rfl,
    fbd_main_exit_codes.2.2.2.2.1 ⟨true, true, false⟩ rfl rfl rfl,
    fbd_main_exit_codes.2.2.2.2.2 ⟨true, true, true⟩ rfl rfl⟩

/-! ## lemmas and theorem for claim C3 -/

theorem perm_rgb_names (idx : List String) (h : idx.Perm ["red", "green", "blue"]) :
    idx = ["red", "green", "blue"] ∨ idx = ["red", "blue", "green"]
    ∨ idx = ["green", "red", "blue"] ∨ idx = ["green", "blue", "red"]
    ∨ idx = ["blue", "red", "green"] ∨ idx = ["blue", "green", "red"] := by
  have hlen : idx.length = 3 := h.length_eq
  match idx, hlen with
  | [a, b, c], _ =>
    have ha : a ∈ ["red", "green", "blue"] := h.mem_iff.mp (by simp)
    have hb : b ∈ ["red", "green", "blue"] := h.mem_iff.mp (by simp)
    have hc : c ∈ ["red", "green", "blue"] := h.mem_iff.mp (by simp)
    simp only [List.mem_cons, List.not_mem_nil, or_false] at ha hb hc
    rcases ha with ha | ha | ha <;> subst ha <;>
      rcases hb with hb | hb | hb <;> subst hb <;>
        rcases hc with hc | hc | hc <;> subst hc <;>
          revert h <;> decide

/-- C3: after a multicolor probe on a `multi_index` that lists the red,
green and blue channel names, the recorded channel positions point at
those names; setting a named color produces a `multi_intensity` tuple whose
components are all 0 or `max_brightness`, with `max_brightness` exactly at
the requested channels; an rgb request places the requested r/g/b at the
probed positions; in every case the intensity string renders the tuple
space-separated and `brightness` is set to `max_brightness` in the same
operation. -/
theorem multicolor_set_color_spec :
    ∀ (idx : List String) (mb : Nat) (rgb : FbdLedRgbColor)
      (priv : FbdDevLedMulticolorPrivate),
      idx.Perm ["red", "green", "blue"] →
      fbd_dev_led_multicolor_probe (some idx) mb = .ok (priv, mb) →
      (idx.getD priv.red_index "" = "red"
        ∧ idx.getD priv.green_index "" = "green"
        ∧ idx.getD priv.blue_index "" = "blue")
      ∧ (∀ color : FbdFeedbackLedColor, color ≠ .flash → color ≠ .rgb →
          ∃ w : MulticolorWrite,
            fbd_dev_led_multicolor_set_color priv mb color rgb = some w
            ∧ w.brightness = mb
            ∧ w.colors.length = 3
            ∧ (∀ c ∈ w.colors, c = 0 ∨ c = mb)
            ∧ w.colors.getD priv.red_index 0
                = (if color = .white ∨ color = .red then mb else 0)
            ∧ w.colors.getD priv.green_index 0
                = (if color = .white ∨ color = .green then mb else 0)
            ∧ w.colors.getD priv.blue_index 0
                = (if color = .white ∨ color = .blue then mb else 0)
            ∧ w.intensity = multi_intensity_string w.colors)
      ∧ (∃ w : MulticolorWrite,
          fbd_dev_led_multicolor_set_color priv mb .rgb rgb = some w
          ∧ w.brightness = mb
          ∧ w.colors.getD priv.red_index 0 = rgb.r
          ∧ w.colors.getD priv.green_index 0 = rgb.g
          ∧ w.colors.getD priv.blue_index 0 = rgb.b
          ∧ w.intensity = multi_intensity_string w.colors) := by
  intro idx mb rgb priv hperm hprobe
  have hlen : idx.length = 3 := hperm.length_eq
  have hmb : ¬(mb = 0) := by
    intro h0
    simp [fbd_dev_led_multicolor_probe, hlen, h0] at hprobe
  have hpriv : priv = multicolor_index_loop idx 0 ⟨0, 0, 0⟩ := by
    simp only [fbd_dev_led_multicolor_probe, hlen, if_neg hmb] at hprobe
    simp only [ne_eq, not_true_eq_false, if_false, Except.ok.injEq, Prod.mk.injEq] at hprobe
    exact hprobe.1.symm
  subst hpriv
  rcases perm_rgb_names idx hperm with rfl | rfl | rfl | rfl | rfl | rfl <;>
    · refine ⟨by decide, fun color hcf hcr => ?_,
        ⟨_, rfl, rfl, rfl, rfl, rfl, rfl⟩⟩
      cases color with
      | flash => exact absurd rfl hcf
      | rgb => exact absurd rfl hcr
      | white =>
        exact ⟨_, rfl, rfl, rfl, by intro c hc; fin_cases hc <;> simp,
          rfl, rfl, rfl, rfl⟩
      | red =>
        exact ⟨_, rfl, rfl, rfl, by intro c hc; fin_cases hc <;> simp,
          rfl, rfl, rfl, rfl⟩
      | green =>
        exact ⟨_, rfl, rfl, rfl, by intro c hc; fin_cases hc <;> simp,
          rfl, rfl, rfl, rfl⟩
      | blue =>
        exact ⟨_, rfl, rfl, rfl, by intro c hc; fin_cases hc <;> simp,
          rfl, rfl, rfl, rfl⟩

/-- evaluation of `multicolor_set_color_spec` at the standard
"red green blue" channel order with max brightness 255. -/
theorem multicolor_set_color_spec_witness :
    ["red", "green", "blue"].getD (0 : Nat) "" = "red"
    ∧ ["red", "green", "blue"].getD (1 : Nat) "" = "green"
    ∧ ["red", "green", "blue"].getD (2 : Nat) "" = "blue" :=
  (multicolor_set_color_spec ["red", "green", "blue"] 255 ⟨10, 20, 30⟩ ⟨0, 1, 2⟩
    (by decide) rfl).1

/-! ## lemmas and theorem for claim C2 -/

theorem probe_led_eq_findSome? (dev : GUdevDevice) :
    probe_led dev = probe_order.findSome? dev.probeResult := by
  simp only [probe_led, probe_order, List.findSome?]
  cases dev.probeResult .qcomMulticolor <;>
    cases dev.probeResult .qcomSingle <;>
      cases dev.probeResult .multicolor <;>
        cases dev.probeResult .flash <;>
          cases dev.probeResult .plain <;> rfl

theorem collect_leds_eq_filter (devs : List GUdevDevice) :
    collect_leds devs =
      (devs.filter
        (fun d => d.feedbackdProperty = some FEEDBACKD_UDEV_VAL_LED)).filterMap probe_led := by
  induction devs with
  | nil => rfl
  | cons dev rest ih =>
    by_cases h : dev.feedbackdProperty = some FEEDBACKD_UDEV_VAL_LED
    · cases hp : probe_led dev <;>
        simp [collect_leds, h, hp, ih, List.filter_cons, List.filterMap_cons]
    · simp [collect_leds, h, ih, List.filter_cons]

theorem led_insert_perm (led : FbdDevLed) (l : List FbdDevLed) :
    (led_insert led l).Perm (led :: l) := by
  induction l with
  | nil => exact List.Perm.refl _
  | cons x xs ih =>
    by_cases hlt : x.priority < led.priority
    · simp only [led_insert, if_pos hlt]
      exact List.Perm.refl _
    · simp only [led_insert, if_neg hlt]
      exact (ih.cons x).trans (List.Perm.swap led x xs)

theorem led_insert_sorted (led : FbdDevLed) (l : List FbdDevLed)
    (h : l.Pairwise led_prio_ge) : (led_insert led l).Pairwise led_prio_ge := by
  induction l with
  | nil => simp [led_insert]
  | cons x xs ih =>
    rw [List.pairwise_cons] at h
    obtain ⟨hx, hxs⟩ := h
    by_cases hlt : x.priority < led.priority
    · simp only [led_insert, if_pos hlt]
      refine List.pairwise_cons.mpr ⟨?_, List.pairwise_cons.mpr ⟨hx, hxs⟩⟩
      intro b hb
      rcases List.mem_cons.mp hb with hb | hb
      · subst hb; exact le_of_lt hlt
      · exact le_trans (hx b hb) (le_of_lt hlt)
    · simp only [led_insert, if_neg hlt]
      refine List.pairwise_cons.mpr ⟨?_, ih hxs⟩
      intro b hb
      have hmem : b = led ∨ b ∈ xs :=
        List.mem_cons.mp ((led_insert_perm led xs).mem_iff.mp hb)
      rcases hmem with hb | hb
      · subst hb
        exact not_lt.mp hlt
      · exact hx b hb

theorem foldl_led_insert_perm (leds acc : List FbdDevLed) :
    (leds.foldl (fun a led => led_insert led a) acc).Perm (acc ++ leds) := by
  induction leds generalizing acc with
  | nil => simp
  | cons led rest ih =>
    have h1 := ih (led_insert led acc)
    have h2 : (led_insert led acc ++ rest).Perm ((led :: acc) ++ rest) :=
      (led_insert_perm led acc).append_right rest
    have h3 : ((led :: acc) ++ rest).Perm (acc ++ led :: rest) := by
      simpa using List.perm_middle.symm
    exact (h1.trans h2).trans h3

theorem foldl_led_insert_sorted (leds acc : List FbdDevLed)
    (h : acc.Pairwise led_prio_ge) :
    (leds.foldl (fun a led => led_insert led a) acc).Pairwise led_prio_ge := by
  induction leds generalizing acc with
  | nil => exact h
  | cons led rest ih => exact ih _ (led_insert_sorted led acc h)

/-- C2: LED-set initialization skips devices without the opt-in marker
(filter by `FEEDBACKD_UDEV_ATTR`), probes the rest in the fixed variant
order with the first success winning, sorts the collected LEDs by priority
descending, and fails with an error exactly when the collected list is
empty. -/
theorem initable_init_spec :
    (∀ devs : List GUdevDevice,
      collect_leds devs =
        (devs.filter
          (fun d => d.feedbackdProperty = some FEEDBACKD_UDEV_VAL_LED)).filterMap probe_led)
    ∧ (∀ dev : GUdevDevice, probe_led dev = probe_order.findSome? dev.probeResult)
    ∧ (∀ (devs : List GUdevDevice) (l : List FbdDevLed), initable_init devs = .ok l →
        l.Pairwise led_prio_ge ∧ l.Perm (collect_leds devs))
    ∧ (∀ devs : List GUdevDevice,
        initable_init devs = .error "No usable LEDs found" ↔ collect_leds devs = []) := by
  refine ⟨collect_leds_eq_filter, probe_led_eq_findSome?, ?_, ?_⟩
  · intro devs l h
    unfold initable_init at h
    cases hc : collect_leds devs with
    | nil => rw [hc] at h; exact absurd h (by simp)
    | cons led rest =>
      rw [hc] at h
      simp only [Except.ok.injEq] at h
      subst h
      constructor
      · exact foldl_led_insert_sorted _ _ (List.Pairwise.nil)
      · rw [← hc]
        have := foldl_led_insert_perm (collect_leds devs) []
        simpa [sort_leds_by_priority] using this
  · intro devs
    unfold initable_init
    cases hc : collect_leds devs <;> simp

/-- evaluation of `initable_init_spec` on a concrete device list: a
marker-less device is skipped, the two marked devices probe to LEDs of
priority 5 and 10, and the result is the descending-priority list. -/
theorem initable_init_spec_witness :
    initable_init [witnessDevA, witnessDevNoMarker, witnessDevB] =
      .ok [witnessLedB, witnessLedA]
    ∧ ([witnessLedB, witnessLedA].Pairwise led_prio_ge
        ∧ [witnessLedB, witnessLedA].Perm
            (collect_leds [witnessDevA, witnessDevNoMarker, witnessDevB])) :=
  ⟨rfl, initable_init_spec.2.2.1 [witnessDevA, witnessDevNoMarker, witnessDevB]
    [witnessLedB, witnessLedA] rfl⟩

end Fbd
